import Mathlib

/-!
Verification development for the "mULTI-aGENT-Interviewer" browser component
(`App.tsx`, main draft).  The component is shallowly embedded: React state is an
explicit `AppState` record, the network is an oracle assigning a response to
each `fetch`, and every operation returns its successor state together with a
trace of observable effects (fetch calls, speech synthesis, recognition
re-arming).  JavaScript `Math.random`-based message ids are modelled by a
deterministic counter (`seed`) threaded through each operation; JS number
temperatures (0.0 / 0.1 / 0.2) are modelled as rationals, which is faithful
here because the component only passes them through to the request body.
-/

/-- A JSON value, as produced by `res.json()`.  Numbers are modelled as
integers: the response bodies the component inspects carry only strings,
arrays and objects, and no arithmetic is performed on numbers. -/
inductive JsonVal where
  | null
  | bool (b : Bool)
  | num (n : Int)
  | str (s : String)
  | arr (elems : List JsonVal)
  | obj (fields : List (String × JsonVal))

/-- JS optional-chaining property access `v?.key`: yields `none` for
`undefined`/`null` results (absent key, non-object receiver, or a JSON
`null` value, which the subsequent `?.` / `??` operators treat alike). -/
def JsonVal.get (j : JsonVal) (key : String) : Option JsonVal :=
  match j with
  | JsonVal.obj fields =>
    match fields.lookup key with
    | some JsonVal.null => none
    | some v => some v
    | none => none
  | _ => none

/-- JS optional-chaining index access `v?.[i]`: array element, numeric-string
key on an object, single character of a string; `none` otherwise. -/
def JsonVal.idx (j : JsonVal) (i : Nat) : Option JsonVal :=
  match j with
  | JsonVal.arr elems =>
    match elems.get? i with
    | some JsonVal.null => none
    | some v => some v
    | none => none
  | JsonVal.obj fields =>
    match fields.lookup (toString i) with
    | some JsonVal.null => none
    | some v => some v
    | none => none
  | JsonVal.str s =>
    match s.toList.get? i with
    | some c => some (JsonVal.str (String.mk [c]))
    | none => none
  | _ => none

/-- Escape one character for a JSON string literal (the common escapes; the
strings this component serializes contain no other control characters). -/
def escapeChar (c : Char) : String :=
  if c = Char.ofNat 34 then ("\\\"")
  else if c = Char.ofNat 92 then ("\\\\")
  else if c = Char.ofNat 10 then ("\\n")
  else if c = Char.ofNat 9 then ("\\t")
  else if c = Char.ofNat 13 then ("\\r")
  else String.mk [c]

/-- JSON string-literal quoting, as `JSON.stringify` does for strings. -/
def quoteStr (s : String) : String :=
  "\"" ++ String.join (s.toList.map escapeChar) ++ "\""

mutual

/-- `JSON.stringify` on the JSON value model. -/
def JsonVal.stringify : JsonVal → String
  | JsonVal.null => "null"
  | JsonVal.bool b => cond b ("true") ("false")
  | JsonVal.num n => toString n
  | JsonVal.str s => quoteStr s
  | JsonVal.arr elems => "[" ++ stringifyElems elems ++ "]"
  | JsonVal.obj fields => "\x7b" ++ stringifyFields fields ++ "\x7d"

/-- Comma-separated serialization of array elements. -/
def stringifyElems : List JsonVal → String
  | [] => ""
  | [v] => JsonVal.stringify v
  | v :: rest => JsonVal.stringify v ++ "," ++ stringifyElems rest

/-- Comma-separated serialization of object fields. -/
def stringifyFields : List (String × JsonVal) → String
  | [] => ""
  | [(k, v)] => quoteStr k ++ ":" ++ JsonVal.stringify v
  | (k, v) :: rest => quoteStr k ++ ":" ++ JsonVal.stringify v ++ "," ++ stringifyFields rest

end

mutual

/-- JS `String(v)` conversion on the JSON value model. -/
def jsStringOf : JsonVal → String
  | JsonVal.null => "null"
  | JsonVal.bool b => cond b ("true") ("false")
  | JsonVal.num n => toString n
  | JsonVal.str s => s
  | JsonVal.arr elems => jsArrJoin elems
  | JsonVal.obj _ => "[object Object]"

/-- JS `Array.prototype.toString`: elements joined with commas, `null`
rendered as the empty string. -/
def jsArrJoin : List JsonVal → String
  | [] => ""
  | [JsonVal.null] => ""
  | [v] => jsStringOf v
  | JsonVal.null :: rest => "," ++ jsArrJoin rest
  | v :: rest => jsStringOf v ++ "," ++ jsArrJoin rest

end

/-- The chain `data?.choices?.[0]?.text` from `callGroq`. -/
def firstChoiceText (data : JsonVal) : Option JsonVal :=
  ((data.get ("choices")).bind (fun c => c.idx 0)).bind (fun c0 => c0.get ("text"))

/-- `data?.choices?.[0]?.text ?? data?.output ?? JSON.stringify(data)`
from `callGroq` (line 119 of the main draft). -/
def extractRaw (data : JsonVal) : JsonVal :=
  match firstChoiceText data with
  | some v => v
  | none =>
    match data.get ("output") with
    | some v => v
    | none => JsonVal.str data.stringify

/-- `String(text)` applied to the extracted value: the completion text
`callGroq` returns on a successful response. -/
def extractText (data : JsonVal) : String :=
  jsStringOf (extractRaw data)

/-- The chain `data?.choices?.[0]?.message?.content` from the README
draft function `fetchInterviewerReply`. -/
def firstChoiceMessageContent (data : JsonVal) : Option JsonVal :=
  (((data.get ("choices")).bind (fun c => c.idx 0)).bind
    (fun c0 => c0.get ("message"))).bind (fun msg => msg.get ("content"))

/-- JS truthiness of a JSON value. -/
def jsTruthy : JsonVal → Bool
  | JsonVal.null => false
  | JsonVal.bool b => b
  | JsonVal.num n => decide (n ≠ 0)
  | JsonVal.str s => decide (s ≠ "")
  | JsonVal.arr _ => true
  | JsonVal.obj _ => true

/-- `data?.choices?.[0]?.message?.content || "…"` from the README draft
function `fetchInterviewerReply` (its whole text-extraction step). -/
def fetchReplyText (data : JsonVal) : String :=
  match firstChoiceMessageContent data with
  | some v => if jsTruthy v then jsStringOf v else ("…")
  | none => "…"

/-- JS `a || b` on strings: the empty string is falsy. -/
def jsOr (a b : String) : String :=
  if a = "" then b else a

/-- Resolved session configuration: API URL and build-time static key
(`GROQ_API_URL`, `STATIC_API_KEY`). -/
structure Config where
  apiUrl : String
  staticApiKey : String

/-- `DEFAULT_GROQ_API_URL` from the main draft. -/
def DEFAULT_GROQ_API_URL : String :=
  "https://api.groq.ai/v1/engines/gpt-oss-120b/completions"

/-- `MODEL` constant. -/
def MODEL : String := "openai/gpt-oss-120b"

/-- One HTTP POST issued by `callGroq`: the request body fields `prompt`,
`temperature`, `max_tokens` plus URL and bearer key. -/
structure FetchCall where
  url : String
  apiKey : String
  prompt : String
  temperature : ℚ
  maxTokens : Nat
deriving DecidableEq

/-- Observable effects of an operation, in order of occurrence. -/
inductive Event where
  | fetch (call : FetchCall)
  | speak (text : String)
  | armRecognition
deriving DecidableEq

/-- The two failure kinds `callGroq` can throw. -/
inductive CallError where
  | config (msg : String)
  | upstream (status : Nat) (body : String)
deriving DecidableEq

/-- The `.message` of the thrown `Error`, as rendered into the transcript. -/
def CallError.message : CallError → String
  | CallError.config m => m
  | CallError.upstream s b => "GROQ API error: " ++ toString s ++ " " ++ b

/-- The message of the missing-key `Error` thrown by `callGroq`. -/
def missingKeyMsg : String :=
  "Missing GROQ API key. Set VITE_GROQ_API_KEY at build time or paste a key in Dev API Key."

/-- The network answer to one `fetch`: either `res.ok` with a parsed JSON
body, or a non-ok status with the raw `res.text()`. -/
inductive FetchResponse where
  | ok (body : JsonVal)
  | err (status : Nat) (bodyText : String)

/-- `callGroq(prompt, temperature, max_tokens)`: checks the effective key
(`STATIC_API_KEY || devApiKey`) before any network attempt, then performs
exactly one `fetch` whose answer `resp` the network oracle supplies, and
either fails with the upstream status/body or extracts the completion text.
Returns the result together with the trace of fetches performed. -/
def callGroq (cfg : Config) (devKey : String) (resp : FetchResponse)
    (prompt : String) (temperature : ℚ) (maxTokens : Nat) :
    Except CallError String × List Event :=
  if jsOr cfg.staticApiKey devKey = "" then
    (Except.error (CallError.config missingKeyMsg), [])
  else
    let call : FetchCall :=
      { url := cfg.apiUrl, apiKey := jsOr cfg.staticApiKey devKey,
        prompt := prompt, temperature := temperature, maxTokens := maxTokens }
    match resp with
    | FetchResponse.err status txt =>
      (Except.error (CallError.upstream status txt), [Event.fetch call])
    | FetchResponse.ok body =>
      (Except.ok (extractText body), [Event.fetch call])

/-- Message roles. -/
inductive Role where
  | system
  | assistant
  | user
deriving DecidableEq

/-- A transcript message (`type Message` in the source). -/
structure Message where
  id : String
  role : Role
  text : String
deriving DecidableEq

/-- `uid(prefix)`: the source draws a random base-36 suffix; the embedding
threads a deterministic counter instead. -/
def uid (pre : String) (n : Nat) : String :=
  pre ++ "_" ++ toString n

/-- A message appended with `uid("u")` and role `user`. -/
def userMsg (n : Nat) (t : String) : Message :=
  { id := uid ("u") n, role := Role.user, text := t }

/-- A message appended with `uid("a")` and role `assistant`. -/
def assistantMsg (n : Nat) (t : String) : Message :=
  { id := uid ("a") n, role := Role.assistant, text := t }

/-- The catch-branch message: `uid("aerr")`, role `assistant`,
text `"Error: " + err.message`. -/
def errorMsg (n : Nat) (e : CallError) : Message :=
  { id := uid ("aerr") n, role := Role.assistant, text := "Error: " ++ e.message }

/-- The text of the seeded system message. -/
def pihuSystemText : String :=
  "You are Pihu — an agentic interview assistant that plans, asks context-aware follow-ups, conducts behavioral + technical interview questions, evaluates answers, and provides concise feedback and scores."

/-- The initial transcript entry (`uid("sys")`, role `system`). -/
def systemMsg : Message :=
  { id := uid ("sys") 0, role := Role.system, text := pihuSystemText }

/-- The React state of the component. -/
structure AppState where
  messages : List Message
  candidateProfile : String
  userInput : String
  isThinking : Bool
  devApiKey : String
  diagnostics : Option String
  lastTestResponse : Option String

/-- The state after the component mounts. -/
def initState : AppState :=
  { messages := [systemMsg], candidateProfile := "", userInput := "",
    isThinking := false, devApiKey := "", diagnostics := none,
    lastTestResponse := none }

/-- `ROLE` rendering (`m.role.toUpperCase()`). -/
def Role.upper : Role → String
  | Role.system => "SYSTEM"
  | Role.assistant => "ASSISTANT"
  | Role.user => "USER"

/-- `messages.map(m => ROLE + ": " + m.text).join("\n")`. -/
def renderTranscript (ms : List Message) : String :=
  String.intercalate "\n" (ms.map (fun m => m.role.upper ++ ": " ++ m.text))

/-- The user message announcing the start of the interview. -/
def startText (profile : String) : String :=
  "Start an agentic interview for candidate:\n" ++ profile

/-- The planning prompt of `startAgenticInterview`. -/
def planPrompt (profile : String) : String :=
  "You are an expert interview designer. Given the candidate profile below, produce a short JSON plan with:\n1) role summary (1 line)\n2) 3 follow-up clarifying questions to ask candidate before interview\n3) 6 interview questions (mix of behavioral + technical) with a 1-3 line rubric for each question.\n\nCandidate profile:\n" ++ profile

/-- The follow-up-extraction prompt of `startAgenticInterview`; its sole
input is the text of the plan call. -/
def followupsPrompt (planText : String) : String :=
  "From this plan, extract only the 3 follow-up clarifying questions in a numbered list. Plan was:\n" ++ planText

/-- The prompt of `handleAskNext`, built from the rendered transcript. -/
def askNextPrompt (ms : List Message) : String :=
  "You are the interviewer. Ask one interview question or follow-up based on the conversation so far. Conversation messages:\n" ++ renderTranscript ms ++ "\nIf the next step is to ask a rubric-based question, include a short rubric after the question separated by \n---\nRubric:"

/-- The evaluation prompt of `handleUserSubmit`: the rendered transcript
(the render-time `messages` closure) plus the literal answer. -/
def evalPrompt (ms : List Message) (answer : String) : String :=
  "You are an interview evaluator. Given the last interview question and the candidate\x27s answer below, provide:\n1) a short score 1-5,\n2) 2-line feedback,\n3) suggested follow-up probe (single sentence) if needed.\n\nConversation:\n" ++ renderTranscript ms ++ "\nCANDIDATE_ANSWER: " ++ answer

/-- Temperature `0.1` used by both `startAgenticInterview` calls. -/
def temp01 : ℚ := 1 / 10

/-- Temperature `0.2` used by `handleAskNext`. -/
def temp02 : ℚ := 1 / 5

/-- `startAgenticInterview()`: appends the announcement, chains the plan call
and then the follow-up-extraction call (the second prompt is built from the
text of the first call), appends each result, and on success speaks the
follow-ups and re-arms recognition in the end callback of the utterance.  Any
thrown error is caught and appended as an `Error:` message; `finally`
returns `isThinking` to `false`.  `net k` is the network answer to the
`k`-th fetch of the operation. -/
def startAgenticInterview (cfg : Config) (net : Nat → FetchResponse)
    (seed : Nat) (st : AppState) : AppState × List Event :=
  match callGroq cfg st.devApiKey (net 0) (planPrompt st.candidateProfile) temp01 400 with
  | (Except.error e, evs) =>
    ({ st with
        isThinking := false,
        messages := st.messages ++
          [userMsg seed (startText st.candidateProfile),
           errorMsg (seed + 1) e] }, evs)
  | (Except.ok planText, evs0) =>
    match callGroq cfg st.devApiKey (net 1) (followupsPrompt planText) temp01 200 with
    | (Except.error e, evs1) =>
      ({ st with
          isThinking := false,
          messages := st.messages ++
            [userMsg seed (startText st.candidateProfile),
             assistantMsg (seed + 1) ("PLAN:\n" ++ planText),
             errorMsg (seed + 2) e] }, evs0 ++ evs1)
    | (Except.ok followupText, evs1) =>
      ({ st with
          isThinking := false,
          messages := st.messages ++
            [userMsg seed (startText st.candidateProfile),
             assistantMsg (seed + 1) ("PLAN:\n" ++ planText),
             assistantMsg (seed + 2) ("FOLLOW-UPS:\n" ++ followupText)] },
       evs0 ++ evs1 ++
         [Event.speak ("Let\x27s begin the interview. " ++ followupText),
          Event.armRecognition])

/-- `handleAskNext()`: one completion call over the rendered transcript,
result appended and spoken, recognition re-armed; errors appended as an
`Error:` message; `finally` resets `isThinking`. -/
def handleAskNext (cfg : Config) (net : Nat → FetchResponse)
    (seed : Nat) (st : AppState) : AppState × List Event :=
  match callGroq cfg st.devApiKey (net 0) (askNextPrompt st.messages) temp02 400 with
  | (Except.error e, evs) =>
    ({ st with
        isThinking := false,
        messages := st.messages ++ [errorMsg seed e] }, evs)
  | (Except.ok resp, evs) =>
    ({ st with
        isThinking := false,
        messages := st.messages ++ [assistantMsg seed resp] },
     evs ++ [Event.speak resp, Event.armRecognition])

/-- JS whitespace, for `String.prototype.trim` (the characters relevant to
this component). -/
def isJsWhitespace (c : Char) : Bool :=
  c = Char.ofNat 32 || c = Char.ofNat 9 || c = Char.ofNat 10 ||
    c = Char.ofNat 13 || c = Char.ofNat 12 || c = Char.ofNat 11

/-- Drop leading JS whitespace from a character list. -/
def dropLeadingWs : List Char → List Char
  | [] => []
  | c :: rest => if isJsWhitespace c then dropLeadingWs rest else c :: rest

/-- JS `s.trim()`: strip leading and trailing whitespace. -/
def jsTrim (s : String) : String :=
  String.mk (List.reverse (dropLeadingWs (List.reverse (dropLeadingWs s.toList))))

/-- The body of `handleUserSubmit()`.  React closure capture is explicit:
`closureInput` and `closureMsgs` are the render-time `userInput` and
`messages` the handler closed over, while state updates (`setUserInput`,
functional `setMessages`) apply to the current state `st`.  A blank trimmed
input returns before touching any state.  The evaluation speak has no end
callback, so recognition is not re-armed. -/
def handleUserSubmitCore (cfg : Config) (net : Nat → FetchResponse) (seed : Nat)
    (closureInput : String) (closureMsgs : List Message)
    (st : AppState) : AppState × List Event :=
  if jsTrim closureInput = "" then (st, [])
  else
    match callGroq cfg st.devApiKey (net 0) (evalPrompt closureMsgs (jsTrim closureInput)) 0 250 with
    | (Except.error e, evs) =>
      ({ st with
          userInput := "",
          isThinking := false,
          messages := st.messages ++
            [userMsg seed (jsTrim closureInput),
             errorMsg (seed + 1) e] }, evs)
    | (Except.ok evalText, evs) =>
      ({ st with
          userInput := "",
          isThinking := false,
          messages := st.messages ++
            [userMsg seed (jsTrim closureInput),
             assistantMsg (seed + 1) ("EVALUATION:\n" ++ evalText)] },
       evs ++ [Event.speak evalText])

/-- `handleUserSubmit()` triggered from the UI: the closures are the current
current `userInput` and `messages` of the state. -/
def handleUserSubmit (cfg : Config) (net : Nat → FetchResponse) (seed : Nat)
    (st : AppState) : AppState × List Event :=
  handleUserSubmitCore cfg net seed st.userInput st.messages st

/-- `handleVoiceInput(transcript)`: clears the input, appends the recognized
utterance as a user message, then synchronously invokes `handleUserSubmit`,
whose closures (`userInput`, `messages`) are still the render-time values of
the state the recognition callback closed over. -/
def handleVoiceInput (cfg : Config) (net : Nat → FetchResponse) (seed : Nat)
    (transcript : String) (st : AppState) : AppState × List Event :=
  handleUserSubmitCore cfg net (seed + 1) st.userInput st.messages
    { st with
       userInput := "",
       messages := st.messages ++ [userMsg seed transcript] }

/-- The user-triggered operations of the component.  `seed` feeds the id
counter and `net` is the network oracle for the fetches of that operation. -/
inductive Op where
  | start (seed : Nat) (net : Nat → FetchResponse)
  | askNext (seed : Nat) (net : Nat → FetchResponse)
  | submit (seed : Nat) (net : Nat → FetchResponse)
  | voice (seed : Nat) (net : Nat → FetchResponse) (transcript : String)
  | clear
  | setInput (s : String)
  | setProfile (s : String)
  | setDevKey (s : String)

/-- Whether an operation is the Clear Conversation button. -/
def Op.isClear : Op → Bool
  | Op.clear => true
  | _ => false

/-- One step of the component: dispatches an operation on the state.
`clear` is the `setMessages([])` of the Clear Conversation button; the three
setters are the controlled inputs. -/
def applyOp (cfg : Config) (op : Op) (st : AppState) : AppState × List Event :=
  match op with
  | Op.start seed net => startAgenticInterview cfg net seed st
  | Op.askNext seed net => handleAskNext cfg net seed st
  | Op.submit seed net => handleUserSubmit cfg net seed st
  | Op.voice seed net t => handleVoiceInput cfg net seed t st
  | Op.clear => ({ st with messages := [] }, [])
  | Op.setInput s => ({ st with userInput := s }, [])
  | Op.setProfile s => ({ st with candidateProfile := s }, [])
  | Op.setDevKey s => ({ st with devApiKey := s }, [])

/-- Run a sequence of operations from a state. -/
def runOps (cfg : Config) (ops : List Op) (st : AppState) : AppState :=
  ops.foldl (fun s op => (applyOp cfg op s).1) st

/-- Whether an event is a network request. -/
def Event.isFetch : Event → Bool
  | Event.fetch _ => true
  | _ => false

/-- A configuration with no static credential. -/
def cfg0 : Config :=
  { apiUrl := DEFAULT_GROQ_API_URL, staticApiKey := "" }

/-- A configuration with a static credential. -/
def cfgK : Config :=
  { apiUrl := DEFAULT_GROQ_API_URL, staticApiKey := "sk-test" }

/-- A network oracle that answers every fetch with a 500. -/
def netE : Nat → FetchResponse :=
  fun _ => FetchResponse.err 500 ("oops")

/-- Body of shape `choices: [ (text: "X") ]`. -/
def bodyX : JsonVal :=
  JsonVal.obj [("choices", JsonVal.arr [JsonVal.obj [("text", JsonVal.str ("X"))]])]

/-- Body of shape `output: "Y"` with no `choices`. -/
def bodyY : JsonVal :=
  JsonVal.obj [("output", JsonVal.str ("Y"))]

/-- Body of shape `choices: [ (message: (content: "Z")) ]` with no
`choices[0].text` and no `output`. -/
def bodyZ : JsonVal :=
  JsonVal.obj
    [("choices",
      JsonVal.arr [JsonVal.obj [("message", JsonVal.obj [("content", JsonVal.str ("Z"))])]])]

/-- A network oracle that always succeeds with `bodyY`. -/
def netOK : Nat → FetchResponse :=
  fun _ => FetchResponse.ok bodyY

/-- A network oracle succeeding with `bodyX` on the first fetch and `bodyY`
afterwards. -/
def net2 : Nat → FetchResponse :=
  fun n => if n = 0 then FetchResponse.ok bodyX else FetchResponse.ok bodyY

/-- `initState` with the scenario profile typed into the profile box. -/
def stProfiled : AppState :=
  { initState with candidateProfile := "backend engineer, 5 years" }

/-- The utterance used in the voice-path evaluation. -/
def voiceText : String := "I built a payments service"

/-- C1: with an empty static credential and an empty runtime Dev API Key,
`callGroq` fails with the configuration error for every prompt, temperature
and token bound, and its effect trace is empty — no fetch is ever issued,
whatever the network oracle would have answered, so the credential check
precedes any network attempt. -/
theorem callGroq_missing_key_blocks_fetch (cfg : Config) (devKey : String)
    (resp : FetchResponse) (p : String) (τ : ℚ) (m : Nat)
    (hs : cfg.staticApiKey = "") (hd : devKey = "") :
    callGroq cfg devKey resp p τ m =
      (Except.error (CallError.config missingKeyMsg), []) := by
  simp [callGroq, jsOr, hs, hd]

/-- Witness for C1 at a concrete configuration, prompt and network answer. -/
theorem callGroq_missing_key_blocks_fetch_witness :
    callGroq cfg0 ("") (FetchResponse.err 500 ("oops")) ("hi") temp01 400 =
      (Except.error (CallError.config missingKeyMsg), []) :=
  callGroq_missing_key_blocks_fetch cfg0 ("") (FetchResponse.err 500 ("oops"))
    ("hi") temp01 400 rfl rfl

/-- C4: on a successful JSON body, the extracted completion text is `"X"`
for `choices: [(text: "X")]`, `"Y"` for `output: "Y"` without `choices`, and
the serialization of the whole body when neither the first-choice text nor
the `output` field is present; and on any ok response with a non-empty
effective key `callGroq` returns exactly this extracted string. -/
theorem callGroq_text_extraction_shapes :
    (∀ x : String,
      extractText (JsonVal.obj [("choices", JsonVal.arr [JsonVal.obj [("text", JsonVal.str x)]])]) = x)
    ∧ (∀ y : String, extractText (JsonVal.obj [("output", JsonVal.str y)]) = y)
    ∧ (∀ data : JsonVal, firstChoiceText data = none → data.get ("output") = none →
        extractText data = data.stringify)
    ∧ (∀ (cfg : Config) (devKey : String) (body : JsonVal) (p : String) (τ : ℚ) (m : Nat),
        jsOr cfg.staticApiKey devKey ≠ "" →
        (callGroq cfg devKey (FetchResponse.ok body) p τ m).1 = Except.ok (extractText body)) := by
  refine ⟨fun x => rfl, fun y => rfl, ?_, ?_⟩
  · intro data h1 h2
    simp [extractText, extractRaw, h1, h2, jsStringOf]
  · intro cfg devKey body p τ m h
    simp [callGroq, h]

/-- Witness for C4 at concrete bodies, discharging the absent-field
hypotheses and the non-empty-key hypothesis. -/
theorem callGroq_text_extraction_shapes_witness :
    extractText (JsonVal.obj [("ok", JsonVal.bool true)]) =
      (JsonVal.obj [("ok", JsonVal.bool true)]).stringify
    ∧ (callGroq cfgK ("") (FetchResponse.ok bodyY) ("p") 0 40).1 =
        Except.ok (extractText bodyY) :=
  ⟨callGroq_text_extraction_shapes.2.2.1 (JsonVal.obj [("ok", JsonVal.bool true)]) rfl rfl,
   callGroq_text_extraction_shapes.2.2.2 cfgK ("") bodyY ("p") 0 40 (by decide)⟩

/-- C5 counterexample: for the body `choices: [(message: (content: "Z"))]`
with no `choices[0].text` and no `output`, `callGroq` does NOT extract
`"Z"`; it falls through to the serialization of the whole body, because its
extraction chain never consults `choices[0].message.content`. -/
theorem callGroq_skips_message_content_cex :
    extractText bodyZ ≠ "Z" ∧ extractText bodyZ = bodyZ.stringify :=
  ⟨by decide, rfl⟩

/-- C5 (amended): `callGroq` extracts the completion text by checking
`choices[0].text`, then `output`, then falling back to the serialized body —
`choices[0].message.content` is not part of its chain, so for `bodyZ` the
extracted text is the serialized body.  The `message.content` step belongs
only to the README draft function `fetchInterviewerReply`, whose extraction
(`choices[0].message.content || "…"`) does yield `"Z"` there. -/
theorem text_extraction_priority (data : JsonVal) :
    (∀ v, firstChoiceText data = some v → extractText data = jsStringOf v)
    ∧ (firstChoiceText data = none →
        ∀ v, data.get ("output") = some v → extractText data = jsStringOf v)
    ∧ (firstChoiceText data = none → data.get ("output") = none →
        extractText data = data.stringify)
    ∧ extractText bodyZ = bodyZ.stringify
    ∧ fetchReplyText bodyZ = "Z" := by
  refine ⟨?_, ?_, ?_, rfl, rfl⟩
  · intro v hv
    simp [extractText, extractRaw, hv]
  · intro h1 v hv
    simp [extractText, extractRaw, h1, hv]
  · intro h1 h2
    simp [extractText, extractRaw, h1, h2, jsStringOf]

/-- Witness for the amended C5 statement: the `output` branch fires at a
concrete body once the first-choice-text hypothesis is discharged. -/
theorem text_extraction_priority_witness :
    extractText bodyY = jsStringOf (JsonVal.str ("Y")) :=
  (text_extraction_priority bodyY).2.1 rfl (JsonVal.str ("Y")) rfl

/-- C9: submitting while the trimmed input is empty is a strict no-op: the
entire state is returned unchanged and the effect trace is empty, so no
completion call is made. -/
theorem blank_submit_noop (cfg : Config) (net : Nat → FetchResponse)
    (seed : Nat) (st : AppState) (h : jsTrim st.userInput = "") :
    handleUserSubmit cfg net seed st = (st, []) := by
  simp [handleUserSubmit, handleUserSubmitCore, h]

/-- Witness for C9 at a whitespace-only input. -/
theorem blank_submit_noop_witness :
    handleUserSubmit cfg0 netE 5 { initState with userInput := "   " } =
      ({ initState with userInput := "   " }, []) :=
  blank_submit_noop cfg0 netE 5 { initState with userInput := "   " } (by decide)

/-- C10: Clear Conversation sets the transcript to exactly the empty list
(no reseeded system message), leaves the candidate profile, input field,
thinking flag, Dev API Key, diagnostics and last test response unchanged in
every state — including a Thinking one — and performs no effect. -/
theorem clear_conversation_frame (cfg : Config) (st : AppState) :
    ((applyOp cfg Op.clear st).1).messages = []
    ∧ ((applyOp cfg Op.clear st).1).candidateProfile = st.candidateProfile
    ∧ ((applyOp cfg Op.clear st).1).userInput = st.userInput
    ∧ ((applyOp cfg Op.clear st).1).isThinking = st.isThinking
    ∧ ((applyOp cfg Op.clear st).1).devApiKey = st.devApiKey
    ∧ ((applyOp cfg Op.clear st).1).diagnostics = st.diagnostics
    ∧ ((applyOp cfg Op.clear st).1).lastTestResponse = st.lastTestResponse
    ∧ (applyOp cfg Op.clear st).2 = [] :=
  ⟨rfl, rfl, rfl, rfl, rfl, rfl, rfl, rfl⟩

/-- C2: with a non-empty profile and both completion calls succeeding,
`startAgenticInterview` issues exactly two fetches, in order — the second
whose prompt is built from the extracted text of the first response, so the plan
call completes before the follow-up extraction starts — both before the one
speech-synthesis event; and the transcript gains, in order, the user
announcement, a `PLAN:`-prefixed assistant message and a
`FOLLOW-UPS:`-prefixed assistant message, with thinking back at idle. -/
theorem startAgenticInterview_success_trace (cfg : Config)
    (net : Nat → FetchResponse) (seed : Nat) (st : AppState) (b0 b1 : JsonVal)
    (_hp : jsTrim st.candidateProfile ≠ "")
    (hk : jsOr cfg.staticApiKey st.devApiKey ≠ "")
    (h0 : net 0 = FetchResponse.ok b0) (h1 : net 1 = FetchResponse.ok b1) :
    startAgenticInterview cfg net seed st =
      ({ st with
          isThinking := false,
          messages := st.messages ++
            [userMsg seed (startText st.candidateProfile),
             assistantMsg (seed + 1) ("PLAN:\n" ++ extractText b0),
             assistantMsg (seed + 2) ("FOLLOW-UPS:\n" ++ extractText b1)] },
       [Event.fetch
          { url := cfg.apiUrl, apiKey := jsOr cfg.staticApiKey st.devApiKey,
            prompt := planPrompt st.candidateProfile, temperature := temp01,
            maxTokens := 400 },
        Event.fetch
          { url := cfg.apiUrl, apiKey := jsOr cfg.staticApiKey st.devApiKey,
            prompt := followupsPrompt (extractText b0), temperature := temp01,
            maxTokens := 200 },
        Event.speak ("Let\x27s begin the interview. " ++ extractText b1),
        Event.armRecognition]) := by
  simp [startAgenticInterview, callGroq, h0, h1, hk]

/-- Witness for C2: the spec scenario profile, a keyed configuration and two
successful bodies. -/
theorem startAgenticInterview_success_trace_witness :
    startAgenticInterview cfgK net2 1 stProfiled =
      ({ stProfiled with
          isThinking := false,
          messages := stProfiled.messages ++
            [userMsg 1 (startText stProfiled.candidateProfile),
             assistantMsg 2 ("PLAN:\n" ++ extractText bodyX),
             assistantMsg 3 ("FOLLOW-UPS:\n" ++ extractText bodyY)] },
       [Event.fetch
          { url := cfgK.apiUrl, apiKey := jsOr cfgK.staticApiKey stProfiled.devApiKey,
            prompt := planPrompt stProfiled.candidateProfile, temperature := temp01,
            maxTokens := 400 },
        Event.fetch
          { url := cfgK.apiUrl, apiKey := jsOr cfgK.staticApiKey stProfiled.devApiKey,
            prompt := followupsPrompt (extractText bodyX), temperature := temp01,
            maxTokens := 200 },
        Event.speak ("Let\x27s begin the interview. " ++ extractText bodyY),
        Event.armRecognition]) :=
  startAgenticInterview_success_trace cfgK net2 1 stProfiled bodyX bodyY
    (by decide) (by decide) rfl rfl

/-- C3: for each user-triggered operation, when a completion call fails —
whatever the error, configuration or upstream — the operation appends
exactly one assistant message `Error: <message>` after the messages it had
already appended (the user announcement survives), returns the trace of the
failing call unchanged (so no further completion call is made: in
particular a failed plan call suppresses the follow-up extraction), and
resets thinking to idle; and any single `callGroq` contributes at most one
fetch to that trace. -/
theorem operation_failure_policy (cfg : Config) (net : Nat → FetchResponse)
    (seed : Nat) (st : AppState) (e : CallError) (evs : List Event) :
    (callGroq cfg st.devApiKey (net 0) (planPrompt st.candidateProfile) temp01 400 =
        (Except.error e, evs) →
      startAgenticInterview cfg net seed st =
        ({ st with
            isThinking := false,
            messages := st.messages ++
              [userMsg seed (startText st.candidateProfile),
               errorMsg (seed + 1) e] }, evs))
    ∧ (∀ t0 evs0,
        callGroq cfg st.devApiKey (net 0) (planPrompt st.candidateProfile) temp01 400 =
            (Except.ok t0, evs0) →
        callGroq cfg st.devApiKey (net 1) (followupsPrompt t0) temp01 200 =
            (Except.error e, evs) →
        startAgenticInterview cfg net seed st =
          ({ st with
              isThinking := false,
              messages := st.messages ++
                [userMsg seed (startText st.candidateProfile),
                 assistantMsg (seed + 1) ("PLAN:\n" ++ t0),
                 errorMsg (seed + 2) e] }, evs0 ++ evs))
    ∧ (callGroq cfg st.devApiKey (net 0) (askNextPrompt st.messages) temp02 400 =
          (Except.error e, evs) →
        handleAskNext cfg net seed st =
          ({ st with
              isThinking := false,
              messages := st.messages ++ [errorMsg seed e] }, evs))
    ∧ (jsTrim st.userInput ≠ "" →
        callGroq cfg st.devApiKey (net 0) (evalPrompt st.messages (jsTrim st.userInput)) 0 250 =
            (Except.error e, evs) →
        handleUserSubmit cfg net seed st =
          ({ st with
              userInput := "",
              isThinking := false,
              messages := st.messages ++
                [userMsg seed (jsTrim st.userInput),
                 errorMsg (seed + 1) e] }, evs))
    ∧ (∀ (resp : FetchResponse) (p : String) (τ : ℚ) (m : Nat),
        (((callGroq cfg st.devApiKey resp p τ m).2).filter Event.isFetch).length ≤ 1) := by
  refine ⟨?_, ?_, ?_, ?_, ?_⟩
  · intro h
    simp [startAgenticInterview, h]
  · intro t0 evs0 h0 h1
    simp [startAgenticInterview, h0, h1]
  · intro h
    simp [handleAskNext, h]
  · intro hne h
    simp [handleUserSubmit, handleUserSubmitCore, hne, h]
  · intro resp p τ m
    cases resp <;> by_cases hkey : jsOr cfg.staticApiKey st.devApiKey = "" <;>
      simp [callGroq, hkey, Event.isFetch]

/-- Witness for C3: the start operation with no credential at all fails with
the configuration error before any fetch, and still appends the user
announcement followed by the single error message. -/
theorem operation_failure_policy_witness :
    startAgenticInterview cfg0 netE 3 initState =
      ({ initState with
          isThinking := false,
          messages := initState.messages ++
            [userMsg 3 (startText initState.candidateProfile),
             errorMsg 4 (CallError.config missingKeyMsg)] }, []) :=
  (operation_failure_policy cfg0 netE 3 initState
    (CallError.config missingKeyMsg) []).1 rfl

/-- Helper: `startAgenticInterview` only appends to the transcript. -/
theorem start_messages_extends (cfg : Config) (net : Nat → FetchResponse)
    (seed : Nat) (st : AppState) :
    ∃ tail, ((startAgenticInterview cfg net seed st).1).messages = st.messages ++ tail := by
  unfold startAgenticInterview
  rcases h0 : callGroq cfg st.devApiKey (net 0) (planPrompt st.candidateProfile) temp01 400
    with ⟨r0, evs0⟩
  cases r0 with
  | error e => exact ⟨_, rfl⟩
  | ok t0 =>
    dsimp only
    rcases h1 : callGroq cfg st.devApiKey (net 1) (followupsPrompt t0) temp01 200
      with ⟨r1, evs1⟩
    cases r1 with
    | error e => exact ⟨_, rfl⟩
    | ok fu => exact ⟨_, rfl⟩

/-- Helper: `handleAskNext` only appends to the transcript. -/
theorem askNext_messages_extends (cfg : Config) (net : Nat → FetchResponse)
    (seed : Nat) (st : AppState) :
    ∃ tail, ((handleAskNext cfg net seed st).1).messages = st.messages ++ tail := by
  unfold handleAskNext
  rcases h0 : callGroq cfg st.devApiKey (net 0) (askNextPrompt st.messages) temp02 400
    with ⟨r0, evs0⟩
  cases r0 with
  | error e => exact ⟨_, rfl⟩
  | ok resp => exact ⟨_, rfl⟩

/-- Helper: the submit body only appends to the transcript. -/
theorem submitCore_messages_extends (cfg : Config) (net : Nat → FetchResponse)
    (seed : Nat) (ci : String) (cm : List Message) (st : AppState) :
    ∃ tail, ((handleUserSubmitCore cfg net seed ci cm st).1).messages = st.messages ++ tail := by
  unfold handleUserSubmitCore
  by_cases hb : jsTrim ci = ""
  · rw [if_pos hb]
    exact ⟨[], (List.append_nil st.messages).symm⟩
  · rw [if_neg hb]
    rcases h0 : callGroq cfg st.devApiKey (net 0) (evalPrompt cm (jsTrim ci)) 0 250
      with ⟨r0, evs0⟩
    cases r0 with
    | error e => exact ⟨_, rfl⟩
    | ok t => exact ⟨_, rfl⟩

/-- Helper: every non-clear operation only appends to the transcript. -/
theorem applyOp_messages_extends (cfg : Config) (op : Op) (st : AppState)
    (h : op.isClear = false) :
    ∃ tail, ((applyOp cfg op st).1).messages = st.messages ++ tail := by
  cases op with
  | start seed net => exact start_messages_extends cfg net seed st
  | askNext seed net => exact askNext_messages_extends cfg net seed st
  | submit seed net => exact submitCore_messages_extends cfg net seed st.userInput st.messages st
  | voice seed net t =>
    obtain ⟨tail, ht⟩ := submitCore_messages_extends cfg net (seed + 1) st.userInput st.messages
      { st with
         userInput := "",
         messages := st.messages ++ [userMsg seed t] }
    exact ⟨userMsg seed t :: tail, by simpa using ht⟩
  | clear => exact absurd h (by simp [Op.isClear])
  | setInput s => exact ⟨[], (List.append_nil st.messages).symm⟩
  | setProfile s => exact ⟨[], (List.append_nil st.messages).symm⟩
  | setDevKey s => exact ⟨[], (List.append_nil st.messages).symm⟩

/-- C8: a step that is not the explicit clear extends the transcript — the
old transcript is a prefix of the new one, so its length cannot decrease —
while the explicit clear resets the transcript to empty. -/
theorem transcript_append_only (cfg : Config) (op : Op) (st : AppState) :
    (op.isClear = false →
      (∃ tail, ((applyOp cfg op st).1).messages = st.messages ++ tail)
      ∧ st.messages.length ≤ ((applyOp cfg op st).1).messages.length)
    ∧ ((applyOp cfg Op.clear st).1).messages = [] := by
  constructor
  · intro h
    obtain ⟨tail, ht⟩ := applyOp_messages_extends cfg op st h
    refine ⟨⟨tail, ht⟩, ?_⟩
    rw [ht]
    simp
  · rfl

/-- Witness for C8 at a concrete non-clear step. -/
theorem transcript_append_only_witness :
    (∃ tail, ((applyOp cfg0 (Op.setInput ("hi")) initState).1).messages =
        initState.messages ++ tail)
    ∧ initState.messages.length ≤
        ((applyOp cfg0 (Op.setInput ("hi")) initState).1).messages.length :=
  (transcript_append_only cfg0 (Op.setInput ("hi")) initState).1 rfl

/-- Helper: running clear-free operations preserves the first transcript
message. -/
theorem runOps_first_preserved (cfg : Config) (ops : List Op) :
    ∀ (st : AppState) (m : Message) (t : List Message),
      (∀ op ∈ ops, op.isClear = false) → st.messages = m :: t →
      ∃ t2, (runOps cfg ops st).messages = m :: t2 := by
  induction ops with
  | nil => exact fun st m t _ hm => ⟨t, hm⟩
  | cons op rest ih =>
    intro st m t h hm
    obtain ⟨tail, ht⟩ := applyOp_messages_extends cfg op st (h op (List.mem_cons_self op rest))
    exact ih ((applyOp cfg op st).1) m (t ++ tail)
      (fun o ho => h o (List.mem_cons_of_mem op ho))
      (by rw [ht, hm]; simp)

set_option maxRecDepth 4000 in
/-- C7 counterexample: the claim fails on the sequence clear-then-ask-next:
Clear Conversation empties the transcript without reseeding, and the
following ask-next (here failing on the missing key) appends an assistant
message, so the transcript is non-empty with a non-`system` first
message. -/
theorem clear_breaks_system_first_cex :
    (runOps cfg0 [Op.clear, Op.askNext 1 netE] initState).messages ≠ []
    ∧ ((runOps cfg0 [Op.clear, Op.askNext 1 netE] initState).messages.map
        Message.role) = [Role.assistant]
    ∧ ((runOps cfg0 [Op.clear, Op.askNext 1 netE] initState).messages.head?.map
        Message.role) ≠ some Role.system := by
  refine ⟨by decide, by decide, by decide⟩

/-- C7 (amended): after any sequence of start-interview, ask-next,
submit-answer and voice-input operations in which no clear occurs, the
transcript stays non-empty and still starts with the seeded `system`
message — no operation removes it individually.  Once a clear occurs this
can fail: clear empties the transcript without reseeding the system
message, and later operations may place a non-`system` message first. -/
theorem system_message_first_invariant (cfg : Config) (ops : List Op)
    (h : ∀ op ∈ ops, op.isClear = false) :
    systemMsg.role = Role.system
    ∧ ∃ t, (runOps cfg ops initState).messages = systemMsg :: t :=
  ⟨rfl, runOps_first_preserved cfg ops initState systemMsg [] h rfl⟩

/-- Witness for the amended C7 statement on a concrete clear-free sequence. -/
theorem system_message_first_invariant_witness :
    systemMsg.role = Role.system
    ∧ ∃ t, (runOps cfg0 [Op.askNext 1 netE] initState).messages = systemMsg :: t :=
  system_message_first_invariant cfg0 [Op.askNext 1 netE]
    (by
      intro op hop
      rw [List.mem_singleton] at hop
      subst hop
      rfl)

set_option maxRecDepth 4000 in
/-- C6 (divergence witness): with a configured key, an empty manual input
and a successful network, the voice path appends the recognized utterance
as a user message but performs no fetch and appends no assistant message —
the inner `handleUserSubmit` still sees the render-time blank `userInput`
and returns — whereas typing the same text and submitting performs the
evaluation fetch and appends the assistant evaluation.  The two paths are
not equivalent, contradicting the claim. -/
theorem voice_submit_divergence :
    (handleVoiceInput cfgK netOK 1 voiceText initState).1.messages =
        initState.messages ++ [userMsg 1 voiceText]
    ∧ (handleVoiceInput cfgK netOK 1 voiceText initState).2 = []
    ∧ (handleUserSubmit cfgK netOK 1 { initState with userInput := voiceText }).1.messages =
        initState.messages ++
          [userMsg 1 voiceText,
           assistantMsg 2 ("EVALUATION:\n" ++ extractText bodyY)]
    ∧ (handleUserSubmit cfgK netOK 1 { initState with userInput := voiceText }).2 =
        [Event.fetch
          { url := cfgK.apiUrl, apiKey := jsOr cfgK.staticApiKey (""),
            prompt := evalPrompt initState.messages voiceText, temperature := 0,
            maxTokens := 250 },
         Event.speak (extractText bodyY)] := by
  refine ⟨by decide, by decide, by decide, by decide⟩
